import Mathlib

/-!
Shallow embedding of the purchase / entitlement lifecycle of the
DesyncServer backend.

Sources embedded:
  * the `Purchase` mongoose model (schema, `completePurchase`,
    `failPurchase`, `refundPurchase`, `recordDownload`, `canDownload`,
    `toJSON`);
  * the `Product`, `Role`, `UserRole`, `Software` models (the fields
    the purchase flow reads);
  * the Stripe routes `POST /create-checkout-session`,
    `POST /webhook` (with `handleCheckoutSessionCompleted` and
    `handlePaymentFailed`), and the purchases routes
    `POST /purchases` and `POST /purchases/:id/download`.

Modelling conventions: ISO-date strings become integer instants on an
abstract timeline (`now : Int`); a day is one unit, so the JS
`expiry.setDate(expiry.getDate() + durationDays)` becomes
`now + durationDays`.  Nullable fields become `Option`.  The document
store becomes explicit lists carried in a `Store`; a mongoose `save` of
an existing document replaces every stored document with the same `id`.
External effects (Stripe session creation, license-key randomness,
signature verification) are parameters of the functions that use them.
-/

namespace DesyncServer

/-- The `status` enum of the purchase schema. -/
inductive Status
  | Pending
  | Completed
  | Failed
  | Refunded
  | Cancelled
  deriving DecidableEq, Repr

/-- The purchase document (fields of `purchaseSchema`).  `_id`/`__v` are
mongoose internals and are not part of the document model. -/
structure Purchase where
  id : Nat
  userId : Nat
  softwareId : Nat
  paymentMethod : String
  amount : Int
  currency : String
  status : Status
  transactionId : Option String
  stripePaymentId : Option String
  stripeSessionId : Option String
  productSlug : Option String
  duration : Option String
  durationDays : Option Int
  paymentData : String
  purchaseDate : Int
  completedAt : Option Int
  refundedAt : Option Int
  refundReason : Option String
  downloadCount : Nat
  maxDownloads : Nat
  lastDownload : Option Int
  licenseKey : Option String
  expiresAt : Option Int
  notes : Option String
  deriving DecidableEq, Repr

/-- `purchaseSchema.methods.completePurchase`. -/
def completePurchase (now : Int) (transactionId : Option String) (p : Purchase) :
    Purchase :=
  let p1 := { p with status := Status.Completed, completedAt := some now }
  match transactionId with
  | some t => { p1 with transactionId := some t }
  | none => p1

/-- `purchaseSchema.methods.failPurchase`. -/
def failPurchase (reason : Option String) (p : Purchase) : Purchase :=
  let p1 := { p with status := Status.Failed }
  match reason with
  | some r => { p1 with notes := some r }
  | none => p1

/-- `purchaseSchema.methods.refundPurchase`. -/
def refundPurchase (now : Int) (reason : Option String) (p : Purchase) :
    Purchase :=
  { p with status := Status.Refunded, refundedAt := some now,
           refundReason := reason }

/-- `purchaseSchema.methods.recordDownload`: throws
`Download limit exceeded` when the counter has no headroom, otherwise
increments the counter and stamps `lastDownload`. -/
def recordDownload (now : Int) (p : Purchase) : Except String Purchase :=
  if p.downloadCount ≥ p.maxDownloads then
    Except.error "Download limit exceeded"
  else
    Except.ok { p with downloadCount := p.downloadCount + 1,
                       lastDownload := some now }

/-- `purchaseSchema.methods.canDownload`: status must be `Completed`, the
counter must have headroom, and the record must not be past its expiry
(`new Date() > new Date(this.expiresAt)` rejects). -/
def canDownload (now : Int) (p : Purchase) : Bool :=
  if p.status ≠ Status.Completed then false
  else if p.downloadCount ≥ p.maxDownloads then false
  else
    match p.expiresAt with
    | some e => if now > e then false else true
    | none => true

/-- `n` successive `recordDownload` calls, the next starting from the
result of the previous, failure propagating. -/
def redeemTimes (now : Int) : Nat → Purchase → Except String Purchase
  | 0, p => Except.ok p
  | n + 1, p => (recordDownload now p).bind (redeemTimes now n)

/-- JSON values appearing in a serialized purchase document. -/
inductive JsonVal
  | jNull
  | jNum (n : Int)
  | jStr (s : String)
  deriving DecidableEq, Repr

/-- Serialize an optional number the way mongoose does (`null` default). -/
def jOptInt : Option Int → JsonVal
  | none => JsonVal.jNull
  | some n => JsonVal.jNum n

/-- Serialize an optional string the way mongoose does (`null` default). -/
def jOptStr : Option String → JsonVal
  | none => JsonVal.jNull
  | some s => JsonVal.jStr s

/-- The string stored for each `status` enum member. -/
def statusString : Status → String
  | Status.Pending => "Pending"
  | Status.Completed => "Completed"
  | Status.Failed => "Failed"
  | Status.Refunded => "Refunded"
  | Status.Cancelled => "Cancelled"

/-- `this.toObject()` on a purchase document: every schema field as a
key/value pair (without the mongoose internals `_id`/`__v`, which
`toJSON` deletes as well). -/
def toObject (p : Purchase) : List (String × JsonVal) :=
  [("id", JsonVal.jNum p.id),
   ("userId", JsonVal.jNum p.userId),
   ("softwareId", JsonVal.jNum p.softwareId),
   ("paymentMethod", JsonVal.jStr p.paymentMethod),
   ("amount", JsonVal.jNum p.amount),
   ("currency", JsonVal.jStr p.currency),
   ("status", JsonVal.jStr (statusString p.status)),
   ("transactionId", jOptStr p.transactionId),
   ("stripePaymentId", jOptStr p.stripePaymentId),
   ("stripeSessionId", jOptStr p.stripeSessionId),
   ("productSlug", jOptStr p.productSlug),
   ("duration", jOptStr p.duration),
   ("durationDays", jOptInt p.durationDays),
   ("paymentData", JsonVal.jStr p.paymentData),
   ("purchaseDate", JsonVal.jNum p.purchaseDate),
   ("completedAt", jOptInt p.completedAt),
   ("refundedAt", jOptInt p.refundedAt),
   ("refundReason", jOptStr p.refundReason),
   ("downloadCount", JsonVal.jNum p.downloadCount),
   ("maxDownloads", JsonVal.jNum p.maxDownloads),
   ("lastDownload", jOptInt p.lastDownload),
   ("licenseKey", jOptStr p.licenseKey),
   ("expiresAt", jOptInt p.expiresAt),
   ("notes", jOptStr p.notes)]

/-- `purchaseSchema.methods.toJSON`: `toObject` with `paymentData`
deleted (hide sensitive payment data). -/
def toJSON (p : Purchase) : List (String × JsonVal) :=
  (toObject p).filter (fun kv => !(kv.1 == "paymentData"))

/-- One duration tier of a product (`durations` array entry). -/
structure DurationTier where
  duration : String
  days : Int
  price : Int
  deriving DecidableEq, Repr

/-- The product document fields read by the purchase flow. -/
structure Product where
  id : Nat
  slug : String
  title : String
  basePrice : Int
  currency : Option String
  durations : List DurationTier
  roleId : Option Nat
  active : Bool
  deriving DecidableEq, Repr

/-- The role document fields read by the purchase flow. -/
structure Role where
  id : Nat
  slug : String
  deriving DecidableEq, Repr

/-- A role assignment written by the entitlement grantor. -/
structure UserRole where
  userUid : Nat
  roleId : Nat
  assignedBy : Nat
  expiresAt : Option Int
  deriving DecidableEq, Repr

/-- The legacy software listing fields read by `POST /purchases`. -/
structure Software where
  id : Nat
  price : Int
  currency : String
  status : String
  totalSales : Nat
  deriving DecidableEq, Repr

/-- `softwareSchema.methods.isPurchasable`. -/
def isPurchasable (s : Software) : Bool :=
  s.status == "Active" || s.status == "Beta"

/-- A notification document (the fields the purchase flow writes). -/
structure Notif where
  userUid : Nat
  ntype : String
  title : String
  deriving DecidableEq, Repr

/-- The document store visible to the purchase flow. -/
structure Store where
  purchases : List Purchase
  products : List Product
  roles : List Role
  userRoles : List UserRole
  softwares : List Software
  notifications : List Notif
  deriving DecidableEq, Repr

/-- `save` on an existing purchase document: replace every stored
document carrying the same `id`. -/
def savePurchase (ps : List Purchase) (p : Purchase) : List Purchase :=
  ps.map (fun q => if q.id == p.id then p else q)

/-- The auto-increment pre-save hook: highest existing id plus one
(`lastPurchase ? lastPurchase.id + 1 : 1`). -/
def nextPurchaseId (ps : List Purchase) : Nat :=
  (ps.foldl (fun m p => max m p.id) 0) + 1

/-- The fields of a Stripe checkout-session object that the webhook
handler reads.  `clientReferenceId` / `metadataPurchaseId` hold the
result of `parseInt` on the corresponding string when it parses to a
number, `none` otherwise. -/
structure StripeSession where
  id : String
  paymentIntent : Option String
  clientReferenceId : Option Nat
  metadataPurchaseId : Option Nat
  deriving DecidableEq, Repr

/-- `parseInt(session.client_reference_id || session.metadata.purchaseId)`
followed by the `if (!purchaseId)` guard (`0` and `NaN` are falsy). -/
def sessionPurchaseId (s : StripeSession) : Option Nat :=
  match s.clientReferenceId.orElse (fun _ => s.metadataPurchaseId) with
  | some n => if n == 0 then none else some n
  | none => none

/-- The fields of a Stripe payment-intent object that
`handlePaymentFailed` reads. -/
structure PaymentIntent where
  id : String
  lastErrorMessage : Option String
  deriving DecidableEq, Repr

/-- A verified Stripe webhook event, after `constructEvent` succeeded. -/
inductive StripeEvent
  | checkoutSessionCompleted (s : StripeSession)
  | paymentIntentSucceeded (id : String)
  | paymentIntentFailed (pi : PaymentIntent)
  | other (eventType : String)
  deriving DecidableEq, Repr

/-- `new Date(); expiry.setDate(expiry.getDate() + durationDays)` on the
day-granular timeline. -/
def addDays (now d : Int) : Int := now + d

/-- The expiry computed inside `handleCheckoutSessionCompleted`:
`purchase.durationDays && purchase.durationDays > 0` gates the
computation, otherwise the expiry stays `null`. -/
def grantExpiry (now : Int) (durationDays : Option Int) : Option Int :=
  match durationDays with
  | some d => if 0 < d then some (addDays now d) else none
  | none => none

/-- The notification written at the end of
`handleCheckoutSessionCompleted`. -/
def purchaseCompleteNotif (p : Purchase) : Notif :=
  { userUid := p.userId, ntype := "purchase", title := "Purchase Complete!" }

/-- The notification written by `handlePaymentFailed`. -/
def paymentFailedNotif (p : Purchase) : Notif :=
  { userUid := p.userId, ntype := "purchase", title := "Payment Failed" }

/-- `Product.findOne({ slug: purchase.productSlug })` (a `null` slug
matches no product, since `slug` is a required field). -/
def findProductBySlug (prs : List Product) : Option String → Option Product
  | none => none
  | some sl => prs.find? (fun pr => pr.slug == sl)

/-- The in-place update `handleCheckoutSessionCompleted` performs on the
found purchase before granting entitlements. -/
def completedBySession (now : Int) (sess : StripeSession) (p : Purchase) :
    Purchase :=
  { p with status := Status.Completed,
           completedAt := some now,
           stripePaymentId := sess.paymentIntent,
           transactionId := some sess.id }

/-- `handleCheckoutSessionCompleted(session)`: soft-fails (store
untouched) when the purchase id is missing or the purchase cannot be
found; otherwise marks the purchase `Completed`, records the provider
ids, grants the product's role (when the product names one and that
role exists) with the computed expiry, writes the expiry back onto the
purchase, and creates a notification. -/
def handleCheckoutSessionCompleted (now : Int) (sess : StripeSession)
    (st : Store) : Store :=
  match sessionPurchaseId sess with
  | none => st
  | some pid =>
    match st.purchases.find? (fun p => p.id == pid) with
    | none => st
    | some purchase =>
      let purchase1 := completedBySession now sess purchase
      let st1 := { st with purchases := savePurchase st.purchases purchase1 }
      let productOpt := findProductBySlug st1.products purchase1.productSlug
      let st2 :=
        match productOpt with
        | some product =>
          match product.roleId with
          | some rid =>
            match st1.roles.find? (fun r : Role => r.id == rid) with
            | some role =>
              let expiresAt := grantExpiry now purchase1.durationDays
              let userRole : UserRole :=
                { userUid := purchase1.userId, roleId := role.id,
                  assignedBy := purchase1.userId, expiresAt := expiresAt }
              let purchase2 := { purchase1 with expiresAt := expiresAt }
              { st1 with userRoles := st1.userRoles ++ [userRole],
                         purchases := savePurchase st1.purchases purchase2 }
            | none => st1
          | none => st1
        | none => st1
      { st2 with
        notifications := st2.notifications ++ [purchaseCompleteNotif purchase1] }

/-- `handlePaymentFailed(paymentIntent)`: looks the purchase up by the
stored provider payment id; when found, marks it `Failed` with the
provider's error message as `notes` and notifies the buyer. -/
def handlePaymentFailed (pint : PaymentIntent) (st : Store) : Store :=
  match st.purchases.find? (fun p => p.stripePaymentId == some pint.id) with
  | none => st
  | some purchase =>
    let purchase1 := { purchase with
      status := Status.Failed,
      notes := some (pint.lastErrorMessage.getD "Payment failed") }
    { st with purchases := savePurchase st.purchases purchase1,
              notifications := st.notifications ++ [paymentFailedNotif purchase1] }

/-- The body of a `POST /stripe/webhook` response. -/
inductive WebhookBody
  | webhookError (msg : String)
  | received
  | notConfigured
  deriving DecidableEq, Repr

/-- An HTTP response of the webhook route: status code and body. -/
structure WebhookResponse where
  status : Nat
  body : WebhookBody
  deriving DecidableEq, Repr

/-- `POST /stripe/webhook`.  `configured` is whether the Stripe client is
initialized; `verified` is the outcome of
`stripe.webhooks.constructEvent` (signature verification), an error
message on failure. -/
def postWebhook (configured : Bool) (now : Int)
    (verified : Except String StripeEvent) (st : Store) :
    Store × WebhookResponse :=
  if !configured then
    (st, { status := 503, body := WebhookBody.notConfigured })
  else
    match verified with
    | Except.error msg =>
      (st, { status := 400, body := WebhookBody.webhookError msg })
    | Except.ok ev =>
      let st1 :=
        match ev with
        | StripeEvent.checkoutSessionCompleted sess =>
          handleCheckoutSessionCompleted now sess st
        | StripeEvent.paymentIntentSucceeded _ => st
        | StripeEvent.paymentIntentFailed pint => handlePaymentFailed pint st
        | StripeEvent.other _ => st
      (st1, { status := 200, body := WebhookBody.received })

/-- The outcome of `POST /stripe/create-checkout-session` as seen by the
caller. -/
inductive CheckoutResult
  | notConfigured
  | missingFields
  | productNotFound
  | invalidDuration
  | ok (sessionId : String)
  deriving DecidableEq, Repr

/-- The HTTP status the route sends for each checkout outcome. -/
def checkoutStatus : CheckoutResult → Nat
  | CheckoutResult.notConfigured => 503
  | CheckoutResult.missingFields => 400
  | CheckoutResult.productNotFound => 404
  | CheckoutResult.invalidDuration => 400
  | CheckoutResult.ok _ => 200

/-- `POST /stripe/create-checkout-session`.  `sessId` is the id Stripe
returns for the created session and `licenseKey` the randomly generated
key of the pre-save hook, both parameters of the model.  The route looks
the product up with `{ slug, active: true }` (404 when absent), requires
the requested tier to be present in `product.durations` (400 otherwise),
writes a `Pending` purchase snapshotting the tier's price and the
product's currency (`'USD'` fallback), then stores the session id on the
purchase. -/
def createCheckoutSession (configured : Bool) (now : Int) (userUid : Nat)
    (productSlug duration : String) (sessId licenseKey : String)
    (st : Store) : Store × CheckoutResult :=
  if !configured then
    (st, CheckoutResult.notConfigured)
  else
    match st.products.find? (fun pr => pr.slug == productSlug && pr.active) with
    | none => (st, CheckoutResult.productNotFound)
    | some product =>
      match product.durations.find? (fun d => d.duration == duration) with
      | none => (st, CheckoutResult.invalidDuration)
      | some durationObj =>
        let purchase : Purchase :=
          { id := nextPurchaseId st.purchases,
            userId := userUid,
            softwareId := product.id,
            paymentMethod := "Card",
            amount := durationObj.price,
            currency := product.currency.getD "USD",
            status := Status.Pending,
            transactionId := none,
            stripePaymentId := none,
            stripeSessionId := none,
            productSlug := some productSlug,
            duration := some duration,
            durationDays := some durationObj.days,
            paymentData := "",
            purchaseDate := now,
            completedAt := none,
            refundedAt := none,
            refundReason := none,
            downloadCount := 0,
            maxDownloads := 5,
            lastDownload := none,
            licenseKey := some licenseKey,
            expiresAt := none,
            notes := none }
        let st1 := { st with purchases := st.purchases ++ [purchase] }
        let purchase1 := { purchase with stripeSessionId := some sessId }
        let st2 := { st1 with purchases := savePurchase st1.purchases purchase1 }
        (st2, CheckoutResult.ok sessId)

/-- The outcome of the legacy `POST /purchases` route. -/
inductive PurchaseCreateResult
  | missingFields
  | softwareNotFound
  | notPurchasable
  | alreadyOwned
  | created (purchaseId : Nat)
  deriving DecidableEq, Repr

/-- Legacy `POST /purchases`: validates the software listing, rejects a
second purchase of an already-owned item with 409, creates the purchase
(`status` left to its `Pending` schema default), saves it, then — "for
demo purposes" — immediately auto-completes it and bumps the listing's
sales counter.  `demoTxId` stands for the \x60DEMO_${Date.now()}\x60
transaction id. -/
def createPurchase (now : Int) (userUid : Nat) (softwareId : Nat)
    (paymentMethod : String) (demoTxId : String) (st : Store) :
    Store × PurchaseCreateResult :=
  match st.softwares.find? (fun s => s.id == softwareId) with
  | none => (st, PurchaseCreateResult.softwareNotFound)
  | some software =>
    if !(isPurchasable software) then
      (st, PurchaseCreateResult.notPurchasable)
    else if (st.purchases.find? (fun p =>
        p.userId == userUid && p.softwareId == softwareId
          && p.status == Status.Completed)).isSome then
      (st, PurchaseCreateResult.alreadyOwned)
    else
      let purchase : Purchase :=
        { id := nextPurchaseId st.purchases,
          userId := userUid,
          softwareId := softwareId,
          paymentMethod := paymentMethod,
          amount := software.price,
          currency := software.currency,
          status := Status.Pending,
          transactionId := none,
          stripePaymentId := none,
          stripeSessionId := none,
          productSlug := none,
          duration := none,
          durationDays := none,
          paymentData := "",
          purchaseDate := now,
          completedAt := none,
          refundedAt := none,
          refundReason := none,
          downloadCount := 0,
          maxDownloads := 5,
          lastDownload := none,
          licenseKey := none,
          expiresAt := none,
          notes := none }
      let st1 := { st with purchases := st.purchases ++ [purchase] }
      let purchase1 := completePurchase now (some demoTxId) purchase
      let st2 := { st1 with purchases := savePurchase st1.purchases purchase1 }
      let software1 := { software with totalSales := software.totalSales + 1 }
      let newSoftwares :=
        st2.softwares.map (fun s => if s.id == software1.id then software1 else s)
      let st3 := { st2 with softwares := newSoftwares }
      (st3, PurchaseCreateResult.created purchase.id)

/-- The message chosen inside `POST /purchases/:id/download` when
`canDownload` is false: status first, then counter, then expiry, with a
generic fallback. -/
def downloadDenialMessage (now : Int) (p : Purchase) : String :=
  if p.status ≠ Status.Completed then "Purchase not completed"
  else if p.downloadCount ≥ p.maxDownloads then "Download limit exceeded"
  else
    match p.expiresAt with
    | some e => if now > e then "Purchase has expired" else "Download not available"
    | none => "Download not available"

/-- The outcome of `POST /purchases/:id/download`. -/
inductive DownloadResult
  | notFound
  | forbidden
  | denied (msg : String)
  | ok (remainingDownloads : Nat)
  | serverError
  deriving DecidableEq, Repr

/-- The HTTP status the route sends for each download outcome. -/
def downloadStatus : DownloadResult → Nat
  | DownloadResult.notFound => 404
  | DownloadResult.forbidden => 403
  | DownloadResult.denied _ => 400
  | DownloadResult.ok _ => 200
  | DownloadResult.serverError => 500

/-- `POST /purchases/:id/download`: ownership check, then `canDownload`
with the per-cause message on denial, then `recordDownload`;
`remainingDownloads` is `maxDownloads - downloadCount` read after the
increment. -/
def postDownload (now : Int) (requesterUid : Nat) (pid : Nat) (st : Store) :
    Store × DownloadResult :=
  match st.purchases.find? (fun p => p.id == pid) with
  | none => (st, DownloadResult.notFound)
  | some purchase =>
    if requesterUid ≠ purchase.userId then
      (st, DownloadResult.forbidden)
    else if !(canDownload now purchase) then
      (st, DownloadResult.denied (downloadDenialMessage now purchase))
    else
      match recordDownload now purchase with
      | Except.ok purchase1 =>
        ({ st with purchases := savePurchase st.purchases purchase1 },
         DownloadResult.ok (purchase1.maxDownloads - purchase1.downloadCount))
      | Except.error _ => (st, DownloadResult.serverError)

/-- The operations of the source that mutate a single purchase document
in place. -/
inductive PurchaseOp
  | complete (now : Int) (transactionId : Option String)
  | fail (reason : Option String)
  | refund (now : Int) (reason : Option String)
  | download (now : Int)

/-- Apply one purchase-document operation (a failed `recordDownload`
leaves the document untouched: the exception is thrown before any
mutation). -/
def applyOp : PurchaseOp → Purchase → Purchase
  | PurchaseOp.complete now tx, p => completePurchase now tx p
  | PurchaseOp.fail r, p => failPurchase r p
  | PurchaseOp.refund now r, p => refundPurchase now r p
  | PurchaseOp.download now, p =>
    match recordDownload now p with
    | Except.ok q => q
    | Except.error _ => p

/-- Every store-level operation of the purchase flow. -/
inductive StoreOp
  | checkout (configured : Bool) (now : Int) (userUid : Nat)
      (productSlug duration sessId licenseKey : String)
  | webhook (configured : Bool) (now : Int)
      (verified : Except String StripeEvent)
  | purchaseCreate (now : Int) (userUid softwareId : Nat)
      (paymentMethod demoTxId : String)
  | downloadReq (now : Int) (requesterUid pid : Nat)

/-- Apply one store-level operation, dropping the HTTP response. -/
def applyStoreOp : StoreOp → Store → Store
  | StoreOp.checkout c now uid slug dur sid lk, st =>
    (createCheckoutSession c now uid slug dur sid lk st).1
  | StoreOp.webhook c now v, st => (postWebhook c now v st).1
  | StoreOp.purchaseCreate now uid sid pm tx, st =>
    (createPurchase now uid sid pm tx st).1
  | StoreOp.downloadReq now uid pid, st => (postDownload now uid pid st).1

/-- A baseline purchase document with every nullable field at its schema
default, used to build concrete test records. -/
def basePurchase : Purchase :=
  { id := 1, userId := 7, softwareId := 1, paymentMethod := "Card",
    amount := 999, currency := "USD", status := Status.Pending,
    transactionId := none, stripePaymentId := none, stripeSessionId := none,
    productSlug := none, duration := none, durationDays := none,
    paymentData := "", purchaseDate := 0, completedAt := none,
    refundedAt := none, refundReason := none, downloadCount := 0,
    maxDownloads := 5, lastDownload := none, licenseKey := none,
    expiresAt := none, notes := none }

/-- A pending purchase tied to the `pro-tool` product, one-month tier. -/
def proToolPurchase : Purchase :=
  { basePurchase with productSlug := some "pro-tool",
                      duration := some "1month", durationDays := some 30,
                      licenseKey := some "AAAA-BBBB-CCCC-DDDD" }

/-- The `pro-tool` product: active, one duration tier, grants role 3. -/
def proToolProduct : Product :=
  { id := 1, slug := "pro-tool", title := "Pro Tool", basePrice := 1999,
    currency := some "USD", durations := [⟨"1month", 30, 999⟩],
    roleId := some 3, active := true }

/-- The role granted by `pro-tool`. -/
def proRole : Role := { id := 3, slug := "pro" }

/-- A checkout session correlated to purchase 1. -/
def proSession : StripeSession :=
  { id := "cs_test_1", paymentIntent := some "pi_1",
    clientReferenceId := some 1, metadataPurchaseId := none }

/-- A store holding the pending `pro-tool` purchase and its catalog. -/
def proStore : Store :=
  { purchases := [proToolPurchase], products := [proToolProduct],
    roles := [proRole], userRoles := [], softwares := [], notifications := [] }

/-- An active `pro-tool` product with an empty duration-tier list. -/
def tierlessProduct : Product :=
  { id := 1, slug := "pro-tool", title := "Pro Tool", basePrice := 1999,
    currency := some "USD", durations := [], roleId := some 3, active := true }

/-- A store whose only product has no duration tiers. -/
def tierlessStore : Store :=
  { purchases := [], products := [tierlessProduct], roles := [proRole],
    userRoles := [], softwares := [], notifications := [] }

/-- A completed purchase with headroom whose expiry instant is exactly
`100`. -/
def boundaryPurchase : Purchase :=
  { basePurchase with status := Status.Completed, expiresAt := some 100 }

/-- A refunded purchase, target of a replayed completion. -/
def refundedPurchase : Purchase :=
  { basePurchase with status := Status.Refunded, refundedAt := some 10,
                      refundReason := some "chargeback" }

/-- An active legacy software listing. -/
def demoSoftware : Software :=
  { id := 1, price := 499, currency := "USD", status := "Active",
    totalSales := 0 }

/-- A store holding only the legacy software listing. -/
def demoStore : Store :=
  { purchases := [], products := [], roles := [], userRoles := [],
    softwares := [demoSoftware], notifications := [] }

section Lemmas

/-- Unfolding `find?` by id over a cons cell. -/
theorem find?_id_cons (a : Purchase) (as : List Purchase) (pid : Nat) :
    (a :: as).find? (fun q => q.id == pid) =
      if (a.id == pid) = true then some a
      else as.find? (fun q => q.id == pid) := by
  by_cases h : (a.id == pid) = true
  · rw [if_pos h]
    exact List.find?_cons_of_pos as h
  · rw [if_neg h]
    exact List.find?_cons_of_neg as h

/-- Replacing a document by `savePurchase` keeps it findable: if `find?`
located a document with the searched id, after saving a document with
the same id `find?` locates the saved version. -/
theorem find?_savePurchase (ps : List Purchase) (p p' : Purchase) (pid : Nat)
    (h : ps.find? (fun q => q.id == pid) = some p) (hid : p'.id = p.id) :
    (savePurchase ps p').find? (fun q => q.id == pid) = some p' := by
  have hp : (p.id == pid) = true := by simpa using List.find?_some h
  have hp' : (p'.id == pid) = true := by
    rw [hid]; exact hp
  induction ps with
  | nil => simp [List.find?] at h
  | cons a as ih =>
    rw [find?_id_cons] at h
    by_cases ha : (a.id == pid) = true
    · rw [if_pos ha] at h
      have hap : a = p := by injection h
      have haid : (a.id == p'.id) = true := by
        rw [hid, hap]
        exact beq_self_eq_true p.id
      simp only [savePurchase, List.map_cons, haid, if_true]
      rw [find?_id_cons, if_pos hp']
    · rw [if_neg ha] at h
      have haid : (a.id == p'.id) = false := by
        rw [hid]
        have h1 : p.id = pid := beq_iff_eq.mp hp
        have h2 : a.id ≠ pid := fun hc => ha (beq_iff_eq.mpr hc)
        rw [h1]
        exact beq_eq_false_iff_ne.mpr h2
      simp only [savePurchase, List.map_cons, haid]
      rw [if_neg Bool.false_ne_true, find?_id_cons, if_neg ha]
      exact ih h

/-- `savePurchase` never changes the sequence of stored document ids. -/
theorem savePurchase_map_id (ps : List Purchase) (p : Purchase) :
    (savePurchase ps p).map (fun q => q.id) = ps.map (fun q => q.id) := by
  induction ps with
  | nil => rfl
  | cons a as ih =>
    simp only [savePurchase, List.map_cons] at ih ⊢
    by_cases h : (a.id == p.id) = true
    · rw [if_pos h, ih]
      have hpa : p.id = a.id := (beq_iff_eq.mp h).symm
      rw [hpa]
    · rw [if_neg h, ih]

/-- `savePurchase` with a fresh-id document appended at the tail only
rewrites that tail document. -/
theorem savePurchase_append_fresh (ps : List Purchase) (p p' : Purchase)
    (hid : p'.id = p.id) (hfresh : ∀ q ∈ ps, q.id ≠ p.id) :
    savePurchase (ps ++ [p]) p' = ps ++ [p'] := by
  induction ps with
  | nil =>
    simp only [savePurchase, List.nil_append, List.map_cons, List.map_nil]
    rw [if_pos (by rw [hid]; exact beq_self_eq_true p.id)]
  | cons a as ih =>
    have ha : (a.id == p'.id) = false := by
      rw [hid]
      exact beq_eq_false_iff_ne.mpr (hfresh a (List.mem_cons_self a as))
    simp only [savePurchase, List.cons_append, List.map_cons] at ih ⊢
    rw [if_neg (by simp [ha])]
    rw [ih (fun q hq => hfresh q (List.mem_cons_of_mem a hq))]

/-- The running maximum in `nextPurchaseId` dominates its seed. -/
theorem le_foldl_max (ps : List Purchase) (a : Nat) :
    a ≤ ps.foldl (fun m p => max m p.id) a := by
  induction ps generalizing a with
  | nil => exact Nat.le_refl a
  | cons q qs ih =>
    exact Nat.le_trans (Nat.le_max_left a q.id) (ih (max a q.id))

/-- The running maximum in `nextPurchaseId` dominates every stored id. -/
theorem mem_le_foldl_max (ps : List Purchase) (q : Purchase) :
    q ∈ ps → ∀ a : Nat, q.id ≤ ps.foldl (fun m p => max m p.id) a := by
  induction ps with
  | nil => intro hq; cases hq
  | cons r rs ih =>
    intro hq a
    rcases List.mem_cons.mp hq with h | h
    · subst h
      exact Nat.le_trans (Nat.le_max_right a q.id) (le_foldl_max rs (max a q.id))
    · exact ih h (max a r.id)

/-- The auto-increment id is fresh: strictly above every stored id. -/
theorem nextPurchaseId_fresh (ps : List Purchase) (q : Purchase)
    (hq : q ∈ ps) : q.id ≠ nextPurchaseId ps := by
  have h := mem_le_foldl_max ps q hq 0
  unfold nextPurchaseId
  omega

/-- The entitlement the grant path writes for a purchase and role. -/
def grantedUserRole (now : Int) (purchase : Purchase) (role : Role) :
    UserRole :=
  { userUid := purchase.userId, roleId := role.id,
    assignedBy := purchase.userId,
    expiresAt := grantExpiry now purchase.durationDays }

/-- Unfolds `handleCheckoutSessionCompleted` on the grant path: the
purchase is found, its product exists and names a role, and the role
exists. -/
theorem handleCheckout_grant (now : Int) (sess : StripeSession) (st : Store)
    (pid : Nat) (purchase : Purchase) (product : Product) (rid : Nat)
    (role : Role)
    (h1 : sessionPurchaseId sess = some pid)
    (h2 : st.purchases.find? (fun p => p.id == pid) = some purchase)
    (h3 : findProductBySlug st.products purchase.productSlug = some product)
    (h5 : product.roleId = some rid)
    (h6 : st.roles.find? (fun r => r.id == rid) = some role) :
    handleCheckoutSessionCompleted now sess st =
      { st with
        purchases := savePurchase
          (savePurchase st.purchases (completedBySession now sess purchase))
          { completedBySession now sess purchase with
              expiresAt := grantExpiry now purchase.durationDays },
        userRoles := st.userRoles ++ [grantedUserRole now purchase role],
        notifications := st.notifications ++
          [purchaseCompleteNotif (completedBySession now sess purchase)] } := by
  unfold handleCheckoutSessionCompleted
  simp only [h1, h2, completedBySession, h3, h5, h6, grantedUserRole,
    grantExpiry]

/-- A run of `n` successful downloads advances the counter by `n` while
the limit stays put, whenever there is headroom for all of them. -/
theorem redeemTimes_ok (now : Int) (n : Nat) :
    ∀ p : Purchase, p.downloadCount + n ≤ p.maxDownloads →
    ∃ q, redeemTimes now n p = Except.ok q ∧
      q.downloadCount = p.downloadCount + n ∧
      q.maxDownloads = p.maxDownloads := by
  induction n with
  | zero =>
    intro p _
    exact ⟨p, rfl, by omega, rfl⟩
  | succ k ih =>
    intro p h
    have hr : recordDownload now p = Except.ok
        { p with downloadCount := p.downloadCount + 1,
                 lastDownload := some now } := by
      unfold recordDownload
      rw [if_neg (by omega)]
    obtain ⟨q, hq, hqc, hqm⟩ := ih
      { p with downloadCount := p.downloadCount + 1, lastDownload := some now }
      (by show p.downloadCount + 1 + k ≤ p.maxDownloads; omega)
    have hqc' : q.downloadCount = p.downloadCount + 1 + k := hqc
    have hqm' : q.maxDownloads = p.maxDownloads := hqm
    refine ⟨q, ?_, by omega, hqm'⟩
    show (recordDownload now p).bind (redeemTimes now k) = Except.ok q
    rw [hr]
    exact hq

end Lemmas

section Claims

/-- C1: `downloadCount` never exceeds `maxDownloads`: `recordDownload`
fails with the limit-exceeded error exactly when
`downloadCount >= maxDownloads`, otherwise increments the counter by
one (keeping it within the limit); after `N` successful redeems from a
zero counter with `maxDownloads = N`, the `(N+1)`-th attempt fails with
the limit-exceeded error and, the error being thrown before any
mutation, leaves the counter unchanged. -/
theorem c1_download_limit (now : Int) (N : Nat) (p : Purchase)
    (hc : p.downloadCount = 0) (hm : p.maxDownloads = N) :
    (∀ q : Purchase, q.downloadCount ≥ q.maxDownloads ↔
      recordDownload now q = Except.error "Download limit exceeded") ∧
    (∀ q q' : Purchase, recordDownload now q = Except.ok q' →
      q'.downloadCount = q.downloadCount + 1 ∧
      q'.maxDownloads = q.maxDownloads ∧
      q'.downloadCount ≤ q'.maxDownloads) ∧
    (∃ q : Purchase, redeemTimes now N p = Except.ok q ∧
      q.downloadCount = N ∧ q.maxDownloads = N ∧
      recordDownload now q = Except.error "Download limit exceeded") := by
  refine ⟨fun q => ?_, fun q q' hq => ?_, ?_⟩
  · constructor
    · intro hge
      unfold recordDownload
      rw [if_pos hge]
    · intro he
      by_contra hlt
      unfold recordDownload at he
      rw [if_neg hlt] at he
      cases he
  · unfold recordDownload at hq
    by_cases hge : q.downloadCount ≥ q.maxDownloads
    · rw [if_pos hge] at hq
      cases hq
    · rw [if_neg hge] at hq
      injection hq with hq
      refine ⟨by rw [← hq], by rw [← hq], ?_⟩
      rw [← hq]
      show q.downloadCount + 1 ≤ q.maxDownloads
      omega
  · obtain ⟨q, hq, hqc, hqm⟩ := redeemTimes_ok now N p (by omega)
    refine ⟨q, hq, by omega, by omega, ?_⟩
    unfold recordDownload
    rw [if_pos (by omega)]

/-- Concrete instance of the C1 theorem: a fresh purchase with a limit
of two downloads admits exactly two redeems. -/
theorem c1_download_limit_witness :
    (∀ q : Purchase, q.downloadCount ≥ q.maxDownloads ↔
      recordDownload 0 q = Except.error "Download limit exceeded") ∧
    (∀ q q' : Purchase, recordDownload 0 q = Except.ok q' →
      q'.downloadCount = q.downloadCount + 1 ∧
      q'.maxDownloads = q.maxDownloads ∧
      q'.downloadCount ≤ q'.maxDownloads) ∧
    (∃ q : Purchase,
      redeemTimes 0 2 { basePurchase with maxDownloads := 2 } =
        Except.ok q ∧
      q.downloadCount = 2 ∧ q.maxDownloads = 2 ∧
      recordDownload 0 q = Except.error "Download limit exceeded") :=
  c1_download_limit 0 2 { basePurchase with maxDownloads := 2 } rfl rfl

/-- C4 counterexample: at the very instant `now = expiresAt`,
`canDownload` still allows the download, so "expiresAt is null or
strictly in the future" does not characterize it: the claimed
right-hand side is false while `canDownload` returns true. -/
theorem c4_canDownload_counterexample :
    canDownload 100 boundaryPurchase = true ∧
    ¬ (boundaryPurchase.status = Status.Completed ∧
       boundaryPurchase.downloadCount < boundaryPurchase.maxDownloads ∧
       (boundaryPurchase.expiresAt = none ∨
         ∃ e, boundaryPurchase.expiresAt = some e ∧ (100 : Int) < e)) := by
  constructor
  · rfl
  · rintro ⟨-, -, h | ⟨e, he, hlt⟩⟩
    · exact Option.noConfusion h
    · have he' : e = 100 := by
        have hb : boundaryPurchase.expiresAt = some 100 := rfl
        rw [hb] at he
        injection he with he
        exact he.symm
      omega

/-- C4 amended: `canDownload` returns true iff the status is
`Completed`, the counter has headroom, and `expiresAt` is null or not
strictly in the past (`now ≤ expiresAt`: the boundary instant is still
allowed); in particular it is false for any non-`Completed` status
regardless of counters. -/
theorem c4_canDownload_iff (now : Int) (p : Purchase) :
    canDownload now p = true ↔
      (p.status = Status.Completed ∧
       p.downloadCount < p.maxDownloads ∧
       (p.expiresAt = none ∨ ∃ e, p.expiresAt = some e ∧ now ≤ e)) := by
  unfold canDownload
  by_cases h1 : p.status = Status.Completed
  · rw [if_neg (not_not_intro h1)]
    by_cases h2 : p.downloadCount ≥ p.maxDownloads
    · rw [if_pos h2]
      constructor
      · intro hf
        cases hf
      · rintro ⟨-, hlt, -⟩
        omega
    · rw [if_neg h2]
      cases he : p.expiresAt with
      | none =>
        show true = true ↔ _
        constructor
        · intro _
          exact ⟨h1, by omega, Or.inl rfl⟩
        · intro _
          rfl
      | some e =>
        show (if now > e then false else true) = true ↔ _
        by_cases h3 : now > e
        · rw [if_pos h3]
          constructor
          · intro hf
            cases hf
          · rintro ⟨-, -, hn | ⟨e', he', hle⟩⟩
            · exact Option.noConfusion hn
            · injection he' with he'
              subst he'
              exact absurd hle (not_le.mpr h3)
        · rw [if_neg h3]
          constructor
          · intro _
            exact ⟨h1, by omega, Or.inr ⟨e, rfl, by omega⟩⟩
          · intro _
            rfl
  · rw [if_pos h1]
    constructor
    · intro hf
      cases hf
    · rintro ⟨hst, -, -⟩
      exact absurd hst h1

/-- C2: applying the checkout-completion callback once to a Pending
purchase whose product specifies an existing role flips the status to
Completed and appends exactly one entitlement record; applying the same
callback a second time appends a second entitlement record, so the
handler is not idempotent. -/
theorem c2_completion_grant (now now2 : Int) (sess : StripeSession)
    (st : Store) (pid : Nat) (purchase : Purchase) (product : Product)
    (rid : Nat) (role : Role)
    (h0 : purchase.status = Status.Pending)
    (h1 : sessionPurchaseId sess = some pid)
    (h2 : st.purchases.find? (fun p => p.id == pid) = some purchase)
    (h3 : findProductBySlug st.products purchase.productSlug = some product)
    (h5 : product.roleId = some rid)
    (h6 : st.roles.find? (fun r => r.id == rid) = some role) :
    (∃ p1, (handleCheckoutSessionCompleted now sess st).purchases.find?
        (fun p => p.id == pid) = some p1 ∧ p1.status = Status.Completed) ∧
    (handleCheckoutSessionCompleted now sess st).userRoles =
      st.userRoles ++ [grantedUserRole now purchase role] ∧
    (handleCheckoutSessionCompleted now2 sess
        (handleCheckoutSessionCompleted now sess st)).userRoles.length =
      st.userRoles.length + 2 := by
  have hM := handleCheckout_grant now sess st pid purchase product rid role
    h1 h2 h3 h5 h6
  have hfind1 : (savePurchase st.purchases
      (completedBySession now sess purchase)).find?
      (fun p => p.id == pid) = some (completedBySession now sess purchase) :=
    find?_savePurchase st.purchases purchase _ pid h2 rfl
  have hfind2 : (savePurchase
      (savePurchase st.purchases (completedBySession now sess purchase))
      { completedBySession now sess purchase with
          expiresAt := grantExpiry now purchase.durationDays }).find?
      (fun p => p.id == pid) = some
      { completedBySession now sess purchase with
          expiresAt := grantExpiry now purchase.durationDays } :=
    find?_savePurchase _ (completedBySession now sess purchase) _ pid
      hfind1 rfl
  have h2' : (handleCheckoutSessionCompleted now sess st).purchases.find?
      (fun p => p.id == pid) = some
      { completedBySession now sess purchase with
          expiresAt := grantExpiry now purchase.durationDays } := by
    rw [hM]
    exact hfind2
  refine ⟨⟨_, h2', rfl⟩, ?_, ?_⟩
  · rw [hM]
  · have h3' : findProductBySlug
        (handleCheckoutSessionCompleted now sess st).products
        ({ completedBySession now sess purchase with
            expiresAt := grantExpiry now purchase.durationDays } :
          Purchase).productSlug = some product := by
      rw [hM]
      exact h3
    have h6' : (handleCheckoutSessionCompleted now sess st).roles.find?
        (fun r => r.id == rid) = some role := by
      rw [hM]
      exact h6
    have hM2 := handleCheckout_grant now2 sess
      (handleCheckoutSessionCompleted now sess st) pid _ product rid role
      h1 h2' h3' h5 h6'
    rw [hM2, hM]
    simp [List.length_append]

/-- Concrete instance of the C2 theorem on a one-purchase store. -/
theorem c2_completion_grant_witness :
    (∃ p1, (handleCheckoutSessionCompleted 100 proSession proStore).purchases.find?
        (fun p => p.id == 1) = some p1 ∧ p1.status = Status.Completed) ∧
    (handleCheckoutSessionCompleted 100 proSession proStore).userRoles =
      proStore.userRoles ++ [grantedUserRole 100 proToolPurchase proRole] ∧
    (handleCheckoutSessionCompleted 200 proSession
        (handleCheckoutSessionCompleted 100 proSession proStore)).userRoles.length =
      proStore.userRoles.length + 2 :=
  c2_completion_grant 100 200 proSession proStore 1 proToolPurchase
    proToolProduct 3 proRole rfl rfl rfl rfl rfl rfl

/-- C6: on the grant path, the entitlement's `expiresAt` is
`now + durationDays` when `durationDays` is positive and null
otherwise, and the same expiry is written back onto the purchase
record, so both records carry the same expiry. -/
theorem c6_grant_expiry (now : Int) (sess : StripeSession) (st : Store)
    (pid : Nat) (purchase : Purchase) (product : Product) (rid : Nat)
    (role : Role)
    (h1 : sessionPurchaseId sess = some pid)
    (h2 : st.purchases.find? (fun p => p.id == pid) = some purchase)
    (h3 : findProductBySlug st.products purchase.productSlug = some product)
    (h5 : product.roleId = some rid)
    (h6 : st.roles.find? (fun r => r.id == rid) = some role) :
    ∃ ur p1,
      (handleCheckoutSessionCompleted now sess st).userRoles =
        st.userRoles ++ [ur] ∧
      (∀ d, purchase.durationDays = some d → 0 < d →
        ur.expiresAt = some (now + d)) ∧
      (∀ d, purchase.durationDays = some d → ¬ 0 < d →
        ur.expiresAt = none) ∧
      (purchase.durationDays = none → ur.expiresAt = none) ∧
      (handleCheckoutSessionCompleted now sess st).purchases.find?
        (fun p => p.id == pid) = some p1 ∧
      p1.expiresAt = ur.expiresAt := by
  have hM := handleCheckout_grant now sess st pid purchase product rid role
    h1 h2 h3 h5 h6
  have hfind1 : (savePurchase st.purchases
      (completedBySession now sess purchase)).find?
      (fun p => p.id == pid) = some (completedBySession now sess purchase) :=
    find?_savePurchase st.purchases purchase _ pid h2 rfl
  have hfind2 : (savePurchase
      (savePurchase st.purchases (completedBySession now sess purchase))
      { completedBySession now sess purchase with
          expiresAt := grantExpiry now purchase.durationDays }).find?
      (fun p => p.id == pid) = some
      { completedBySession now sess purchase with
          expiresAt := grantExpiry now purchase.durationDays } :=
    find?_savePurchase _ (completedBySession now sess purchase) _ pid
      hfind1 rfl
  refine ⟨grantedUserRole now purchase role,
    { completedBySession now sess purchase with
        expiresAt := grantExpiry now purchase.durationDays },
    ?_, ?_, ?_, ?_, ?_, rfl⟩
  · rw [hM]
  · intro d hd hpos
    show grantExpiry now purchase.durationDays = some (now + d)
    rw [hd]
    show (if 0 < d then some (now + d) else none) = some (now + d)
    rw [if_pos hpos]
  · intro d hd hnpos
    show grantExpiry now purchase.durationDays = none
    rw [hd]
    show (if 0 < d then some (now + d) else none) = none
    rw [if_neg hnpos]
  · intro hd
    show grantExpiry now purchase.durationDays = none
    rw [hd]
    rfl
  · rw [hM]
    exact hfind2

/-- Concrete instance of the C6 theorem: a 30-day tier grants an
entitlement expiring 30 days after completion, mirrored on the
purchase. -/
theorem c6_grant_expiry_witness :
    ∃ ur p1,
      (handleCheckoutSessionCompleted 100 proSession proStore).userRoles =
        proStore.userRoles ++ [ur] ∧
      (∀ d, proToolPurchase.durationDays = some d → 0 < d →
        ur.expiresAt = some (100 + d)) ∧
      (∀ d, proToolPurchase.durationDays = some d → ¬ 0 < d →
        ur.expiresAt = none) ∧
      (proToolPurchase.durationDays = none → ur.expiresAt = none) ∧
      (handleCheckoutSessionCompleted 100 proSession proStore).purchases.find?
        (fun p => p.id == 1) = some p1 ∧
      p1.expiresAt = ur.expiresAt :=
  c6_grant_expiry 100 proSession proStore 1 proToolPurchase proToolProduct
    3 proRole rfl rfl rfl rfl rfl

/-- C3: with the Stripe client configured, a webhook whose signature
verification fails gets a 400 response and leaves the store (hence
every purchase record) untouched; a webhook whose signature verifies
gets a 200 `received` response for every event, in particular for a
completion event whose purchase id is missing and for one whose
purchase cannot be found (both of which also leave the store
untouched). -/
theorem c3_webhook_responses (now : Int) (st : Store) :
    (∀ msg, postWebhook true now (Except.error msg) st =
      (st, { status := 400, body := WebhookBody.webhookError msg })) ∧
    (∀ ev, (postWebhook true now (Except.ok ev) st).2 =
      { status := 200, body := WebhookBody.received }) ∧
    (∀ sess, sessionPurchaseId sess = none →
      postWebhook true now
          (Except.ok (StripeEvent.checkoutSessionCompleted sess)) st =
        (st, { status := 200, body := WebhookBody.received })) ∧
    (∀ sess pid, sessionPurchaseId sess = some pid →
      st.purchases.find? (fun p => p.id == pid) = none →
      postWebhook true now
          (Except.ok (StripeEvent.checkoutSessionCompleted sess)) st =
        (st, { status := 200, body := WebhookBody.received })) := by
  refine ⟨fun msg => rfl, fun ev => ?_, fun sess hs => ?_, fun sess pid hs hf => ?_⟩
  · cases ev <;> rfl
  · show (handleCheckoutSessionCompleted now sess st,
      ({ status := 200, body := WebhookBody.received } : WebhookResponse)) = _
    unfold handleCheckoutSessionCompleted
    simp [hs]
  · show (handleCheckoutSessionCompleted now sess st,
      ({ status := 200, body := WebhookBody.received } : WebhookResponse)) = _
    unfold handleCheckoutSessionCompleted
    simp [hs, hf]

/-- Concrete instance of the C3 theorem: a session with no purchase id
and a session referencing an absent purchase are both acknowledged with
200 without touching the store; a signature failure yields 400. -/
theorem c3_webhook_responses_witness :
    postWebhook true 0 (Except.error "bad signature") proStore =
      (proStore, { status := 400,
                   body := WebhookBody.webhookError "bad signature" }) ∧
    postWebhook true 0
        (Except.ok (StripeEvent.checkoutSessionCompleted
          { id := "cs_x", paymentIntent := none,
            clientReferenceId := none, metadataPurchaseId := none })) proStore =
      (proStore, { status := 200, body := WebhookBody.received }) ∧
    postWebhook true 0
        (Except.ok (StripeEvent.checkoutSessionCompleted
          { id := "cs_x", paymentIntent := none,
            clientReferenceId := some 42, metadataPurchaseId := none })) proStore =
      (proStore, { status := 200, body := WebhookBody.received }) := by
  refine ⟨(c3_webhook_responses 0 proStore).1 "bad signature", ?_, ?_⟩
  · exact (c3_webhook_responses 0 proStore).2.2.1
      { id := "cs_x", paymentIntent := none,
        clientReferenceId := none, metadataPurchaseId := none } rfl
  · exact (c3_webhook_responses 0 proStore).2.2.2
      { id := "cs_x", paymentIntent := none,
        clientReferenceId := some 42, metadataPurchaseId := none } 42 rfl
      (by decide)

/-- C9: a denied redeem gets a 400 response whose message is determined
by evaluating the status check first, then the counter, then the
expiry; the generic fallback never surfaces when `canDownload` is
false, and the three failure messages are pairwise distinct. -/
theorem c9_denial_messages (now : Int) (uid pid : Nat) (st : Store)
    (purchase : Purchase)
    (hfind : st.purchases.find? (fun p => p.id == pid) = some purchase)
    (howner : uid = purchase.userId)
    (hdeny : canDownload now purchase = false) :
    (postDownload now uid pid st).2 =
      DownloadResult.denied (downloadDenialMessage now purchase) ∧
    downloadStatus (postDownload now uid pid st).2 = 400 ∧
    downloadDenialMessage now purchase =
      (if purchase.status ≠ Status.Completed then "Purchase not completed"
       else if purchase.downloadCount ≥ purchase.maxDownloads then
         "Download limit exceeded"
       else "Purchase has expired") ∧
    ("Purchase not completed" ≠ "Download limit exceeded" ∧
     "Purchase not completed" ≠ "Purchase has expired" ∧
     "Download limit exceeded" ≠ "Purchase has expired") := by
  have hroute : postDownload now uid pid st =
      (st, DownloadResult.denied (downloadDenialMessage now purchase)) := by
    unfold postDownload
    simp only [hfind, hdeny]
    rw [if_neg (fun hne => hne howner)]
    simp
  refine ⟨by rw [hroute], by rw [hroute]; rfl, ?_, by decide, by decide, by decide⟩
  by_cases h1 : purchase.status = Status.Completed
  · rw [if_neg (not_not_intro h1)]
    by_cases h2 : purchase.downloadCount ≥ purchase.maxDownloads
    · rw [if_pos h2]
      unfold downloadDenialMessage
      rw [if_neg (not_not_intro h1), if_pos h2]
    · rw [if_neg h2]
      unfold canDownload at hdeny
      rw [if_neg (not_not_intro h1), if_neg h2] at hdeny
      unfold downloadDenialMessage
      rw [if_neg (not_not_intro h1), if_neg h2]
      cases he : purchase.expiresAt with
      | none =>
        rw [he] at hdeny
        simp at hdeny
      | some e =>
        rw [he] at hdeny
        show (if now > e then "Purchase has expired"
          else "Download not available") = "Purchase has expired"
        by_cases h3 : now > e
        · rw [if_pos h3]
        · simp [h3] at hdeny
  · have h1' : purchase.status ≠ Status.Completed := h1
    rw [if_pos h1']
    unfold downloadDenialMessage
    rw [if_pos h1']

/-- Concrete instance of the C9 theorem: redeeming a Pending purchase
is denied with the status-specific message. -/
theorem c9_denial_messages_witness :
    (postDownload 0 7 1 proStore).2 =
      DownloadResult.denied (downloadDenialMessage 0 proToolPurchase) ∧
    downloadStatus (postDownload 0 7 1 proStore).2 = 400 ∧
    downloadDenialMessage 0 proToolPurchase =
      (if proToolPurchase.status ≠ Status.Completed then
        "Purchase not completed"
       else if proToolPurchase.downloadCount ≥ proToolPurchase.maxDownloads
         then "Download limit exceeded"
       else "Purchase has expired") ∧
    ("Purchase not completed" ≠ "Download limit exceeded" ∧
     "Purchase not completed" ≠ "Purchase has expired" ∧
     "Download limit exceeded" ≠ "Purchase has expired") :=
  c9_denial_messages 0 7 1 proStore proToolPurchase rfl rfl rfl

/-- C5 counterexample: on an active product whose duration-tier list is
empty, the checkout-session route neither fails with NotFound (it
answers 400 Invalid duration) nor falls back to the base price (no
purchase record is created at all), contradicting the claimed failure
classification and fallback. -/
theorem c5_checkout_counterexample :
    (createCheckoutSession true 0 7 "pro-tool" "1month" "s1" "K"
        tierlessStore).2 = CheckoutResult.invalidDuration ∧
    (createCheckoutSession true 0 7 "pro-tool" "1month" "s1" "K"
        tierlessStore).1 = tierlessStore ∧
    checkoutStatus CheckoutResult.invalidDuration = 400 ∧
    CheckoutResult.invalidDuration ≠ CheckoutResult.productNotFound := by
  exact ⟨rfl, rfl, rfl, by decide⟩

/-- C5 amended: for a request naming an active product and an existing
duration tier, the created purchase is Pending with the tier's price
and the product's currency (USD fallback); a missing or inactive
product fails with NotFound (404); a duration tier absent from the
product — in particular when the tier list is empty — fails with
Invalid duration (400), with no fallback to the base price. -/
theorem c5_checkout_amended :
    (∀ (now : Int) (uid : Nat) (slug dur sessId lk : String) (st : Store)
        (product : Product) (tier : DurationTier),
      st.products.find? (fun pr => pr.slug == slug && pr.active) =
        some product →
      product.durations.find? (fun d => d.duration == dur) = some tier →
      (createCheckoutSession true now uid slug dur sessId lk st).2 =
        CheckoutResult.ok sessId ∧
      ∃ p, (createCheckoutSession true now uid slug dur sessId lk
          st).1.purchases = st.purchases ++ [p] ∧
        p.status = Status.Pending ∧ p.amount = tier.price ∧
        p.currency = product.currency.getD "USD") ∧
    (∀ (now : Int) (uid : Nat) (slug dur sessId lk : String) (st : Store),
      st.products.find? (fun pr => pr.slug == slug && pr.active) = none →
      createCheckoutSession true now uid slug dur sessId lk st =
        (st, CheckoutResult.productNotFound)) ∧
    (∀ (now : Int) (uid : Nat) (slug dur sessId lk : String) (st : Store)
        (product : Product),
      st.products.find? (fun pr => pr.slug == slug && pr.active) =
        some product →
      product.durations.find? (fun d => d.duration == dur) = none →
      createCheckoutSession true now uid slug dur sessId lk st =
        (st, CheckoutResult.invalidDuration)) := by
  refine ⟨fun now uid slug dur sessId lk st product tier hp ht => ⟨?_, ?_⟩,
    fun now uid slug dur sessId lk st hp => ?_,
    fun now uid slug dur sessId lk st product hp ht => ?_⟩
  · simp only [createCheckoutSession, hp, ht]
    rfl
  · simp only [createCheckoutSession, hp, ht]
    exact ⟨_, savePurchase_append_fresh st.purchases _ _ rfl
      (fun q hq => nextPurchaseId_fresh st.purchases q hq), rfl, rfl, rfl⟩
  · simp only [createCheckoutSession, hp]
    rfl
  · simp only [createCheckoutSession, hp, ht]
    rfl

/-- Concrete instance of the C5 amended theorem: a valid tier snapshots
its price, a missing product slug is NotFound, and a tierless product
yields Invalid duration. -/
theorem c5_checkout_amended_witness :
    ((createCheckoutSession true 0 7 "pro-tool" "1month" "s1" "K"
        proStore).2 = CheckoutResult.ok "s1" ∧
      ∃ p, (createCheckoutSession true 0 7 "pro-tool" "1month" "s1" "K"
          proStore).1.purchases = proStore.purchases ++ [p] ∧
        p.status = Status.Pending ∧
        p.amount = (⟨"1month", 30, 999⟩ : DurationTier).price ∧
        p.currency = proToolProduct.currency.getD "USD") ∧
    createCheckoutSession true 0 7 "missing" "1month" "s1" "K" proStore =
      (proStore, CheckoutResult.productNotFound) ∧
    createCheckoutSession true 0 7 "pro-tool" "1month" "s1" "K"
        tierlessStore = (tierlessStore, CheckoutResult.invalidDuration) :=
  ⟨c5_checkout_amended.1 0 7 "pro-tool" "1month" "s1" "K" proStore
      proToolProduct ⟨"1month", 30, 999⟩ rfl rfl,
   c5_checkout_amended.2.1 0 7 "missing" "1month" "s1" "K" proStore rfl,
   c5_checkout_amended.2.2 0 7 "pro-tool" "1month" "s1" "K" tierlessStore
      tierlessProduct rfl rfl⟩

/-- The transition relation the claim asserts: an operation leaves the
status alone, starts from Pending, or performs Completed→Refunded. -/
def claimedStatusTransition (s s' : Status) : Prop :=
  s = s' ∨ s = Status.Pending ∨ (s = Status.Completed ∧ s' = Status.Refunded)

/-- C7 counterexample: the status-mutating operations carry no guard, so
replaying the completion on a Refunded purchase performs
Refunded→Completed — a transition the claimed monotonic relation
forbids. -/
theorem c7_monotonic_counterexample :
    ¬ claimedStatusTransition refundedPurchase.status
      (applyOp (PurchaseOp.complete 0 none) refundedPurchase).status := by
  unfold claimedStatusTransition
  decide

/-- C7 amended: no operation ever sets the status back to Pending after
creation (each operation leaves the status unchanged or moves it to
Completed, Failed or Refunded); monotonicity, however, is not enforced:
unguarded transitions such as Refunded→Completed are reachable. -/
theorem c7_no_return_to_pending (op : PurchaseOp) (p : Purchase) :
    ((applyOp op p).status = Status.Pending → p.status = Status.Pending) ∧
    ((applyOp op p).status = p.status ∨
     (applyOp op p).status = Status.Completed ∨
     (applyOp op p).status = Status.Failed ∨
     (applyOp op p).status = Status.Refunded) := by
  cases op with
  | complete now tx =>
    cases tx with
    | none => exact ⟨fun h => Status.noConfusion h, Or.inr (Or.inl rfl)⟩
    | some t => exact ⟨fun h => Status.noConfusion h, Or.inr (Or.inl rfl)⟩
  | fail r =>
    cases r with
    | none => exact ⟨fun h => Status.noConfusion h, Or.inr (Or.inr (Or.inl rfl))⟩
    | some t => exact ⟨fun h => Status.noConfusion h, Or.inr (Or.inr (Or.inl rfl))⟩
  | refund now r =>
    exact ⟨fun h => Status.noConfusion h, Or.inr (Or.inr (Or.inr rfl))⟩
  | download now =>
    have hs : (applyOp (PurchaseOp.download now) p).status = p.status := by
      show (match recordDownload now p with
        | Except.ok q => q
        | Except.error _ => p).status = p.status
      unfold recordDownload
      by_cases hge : p.downloadCount ≥ p.maxDownloads
      · rw [if_pos hge]
      · rw [if_neg hge]
    exact ⟨fun h => by rw [← hs]; exact h, Or.inl hs⟩

/-- Concrete instance of the C7 amended theorem: completing a pending
purchase does not yield Pending unless it already was Pending, and
lands in one of the three terminal statuses. -/
theorem c7_no_return_to_pending_witness :
    ((applyOp (PurchaseOp.complete 0 (some "tx")) basePurchase).status =
        Status.Pending → basePurchase.status = Status.Pending) ∧
    ((applyOp (PurchaseOp.complete 0 (some "tx")) basePurchase).status =
        basePurchase.status ∨
     (applyOp (PurchaseOp.complete 0 (some "tx")) basePurchase).status =
        Status.Completed ∨
     (applyOp (PurchaseOp.complete 0 (some "tx")) basePurchase).status =
        Status.Failed ∨
     (applyOp (PurchaseOp.complete 0 (some "tx")) basePurchase).status =
        Status.Refunded) :=
  c7_no_return_to_pending (PurchaseOp.complete 0 (some "tx")) basePurchase

/-- The completion handler never adds or removes purchase documents: the
stored id sequence is untouched. -/
theorem handleCheckout_map_id (now : Int) (sess : StripeSession) (st : Store) :
    (handleCheckoutSessionCompleted now sess st).purchases.map
      (fun q => q.id) = st.purchases.map (fun q => q.id) := by
  unfold handleCheckoutSessionCompleted
  repeat' split
  all_goals try simp [savePurchase_map_id]
  all_goals repeat' split
  all_goals simp [savePurchase_map_id]

/-- The failure handler never adds or removes purchase documents. -/
theorem handleFailed_map_id (pint : PaymentIntent) (st : Store) :
    (handlePaymentFailed pint st).purchases.map (fun q => q.id) =
      st.purchases.map (fun q => q.id) := by
  unfold handlePaymentFailed
  repeat' split
  all_goals simp [savePurchase_map_id]

/-- No store-level operation of the purchase flow ever deletes a
purchase document: the stored id sequence is only ever extended. -/
theorem storeOp_preserves_ids (sop : StoreOp) (st : Store) :
    ∃ tail, (applyStoreOp sop st).purchases.map (fun q => q.id) =
      st.purchases.map (fun q => q.id) ++ tail := by
  cases sop with
  | checkout c now uid slug dur sid lk =>
    show ∃ tail, (createCheckoutSession c now uid slug dur sid lk st).1.purchases.map
      (fun q => q.id) = _
    unfold createCheckoutSession
    repeat' split
    · exact ⟨[], by simp⟩
    · exact ⟨[], by simp⟩
    · exact ⟨[], by simp⟩
    · refine ⟨[nextPurchaseId st.purchases], ?_⟩
      simp [savePurchase_map_id, List.map_append]
  | webhook c now v =>
    show ∃ tail, (postWebhook c now v st).1.purchases.map (fun q => q.id) = _
    unfold postWebhook
    refine ⟨[], ?_⟩
    repeat' split
    all_goals
      simp [handleCheckout_map_id, handleFailed_map_id]
  | purchaseCreate now uid sid pm tx =>
    show ∃ tail, (createPurchase now uid sid pm tx st).1.purchases.map
      (fun q => q.id) = _
    unfold createPurchase
    repeat' split
    · exact ⟨[], by simp⟩
    · exact ⟨[], by simp⟩
    · exact ⟨[], by simp⟩
    · refine ⟨[nextPurchaseId st.purchases], ?_⟩
      simp [savePurchase_map_id, List.map_append]
  | downloadReq now uid pid =>
    show ∃ tail, (postDownload now uid pid st).1.purchases.map
      (fun q => q.id) = _
    unfold postDownload
    refine ⟨[], ?_⟩
    repeat' split
    all_goals simp [savePurchase_map_id]

/-- C8 counterexample: the legacy purchase-creation request alone — with
no gateway callback and no refund action — leaves its new record with
status Completed: the record's status is mutated by the checkout
request itself, not only by the callback handler or a refund. -/
theorem c8_lifecycle_counterexample :
    (createPurchase 50 7 1 "Card" "DEMO_1" demoStore).1.purchases.map
      (fun p => p.status) = [Status.Completed] ∧
    (createPurchase 50 7 1 "Card" "DEMO_1" demoStore).2 =
      PurchaseCreateResult.created 1 :=
  ⟨rfl, rfl⟩

/-- C8 amended: the Stripe checkout request creates its purchase record
in Pending state and leaves it Pending; the legacy purchase request
creates its record in Pending state but immediately auto-completes it
within the same request, so record statuses are also mutated by that
checkout request itself; and no modelled operation ever physically
deletes a purchase record. -/
theorem c8_lifecycle (now : Int) (uid : Nat) (slug dur sessId lk : String)
    (st : Store) (product : Product) (tier : DurationTier)
    (nowL : Int) (uidL sidL : Nat) (pmL txL : String) (stL : Store)
    (software : Software)
    (hp : st.products.find? (fun pr => pr.slug == slug && pr.active) =
      some product)
    (ht : product.durations.find? (fun d => d.duration == dur) = some tier)
    (hsw : stL.softwares.find? (fun s => s.id == sidL) = some software)
    (hpb : isPurchasable software = true)
    (hno : stL.purchases.find? (fun p => p.userId == uidL &&
      p.softwareId == sidL && p.status == Status.Completed) = none) :
    (∃ p, (createCheckoutSession true now uid slug dur sessId lk
        st).1.purchases = st.purchases ++ [p] ∧
      p.status = Status.Pending) ∧
    (∃ p, (createPurchase nowL uidL sidL pmL txL stL).1.purchases =
        stL.purchases ++ [completePurchase nowL (some txL) p] ∧
      p.status = Status.Pending ∧
      (completePurchase nowL (some txL) p).status = Status.Completed) ∧
    (∀ (sop : StoreOp) (st' : Store), ∃ tail,
      (applyStoreOp sop st').purchases.map (fun q => q.id) =
        st'.purchases.map (fun q => q.id) ++ tail) := by
  refine ⟨?_, ?_, fun sop st' => storeOp_preserves_ids sop st'⟩
  · simp only [createCheckoutSession, hp, ht]
    exact ⟨_, savePurchase_append_fresh st.purchases _ _ rfl
      (fun q hq => nextPurchaseId_fresh st.purchases q hq), rfl⟩
  · simp only [createPurchase, hsw, hpb, hno, Bool.not_true,
      Option.isSome_none]
    exact ⟨_, savePurchase_append_fresh stL.purchases _ _ rfl
      (fun q hq => nextPurchaseId_fresh stL.purchases q hq), rfl, rfl⟩

/-- Concrete instance of the C8 amended theorem on the two example
stores. -/
theorem c8_lifecycle_witness :
    (∃ p, (createCheckoutSession true 0 7 "pro-tool" "1month" "s1" "K"
        proStore).1.purchases = proStore.purchases ++ [p] ∧
      p.status = Status.Pending) ∧
    (∃ p, (createPurchase 50 7 1 "Card" "DEMO_1" demoStore).1.purchases =
        demoStore.purchases ++ [completePurchase 50 (some "DEMO_1") p] ∧
      p.status = Status.Pending ∧
      (completePurchase 50 (some "DEMO_1") p).status = Status.Completed) ∧
    (∀ (sop : StoreOp) (st' : Store), ∃ tail,
      (applyStoreOp sop st').purchases.map (fun q => q.id) =
        st'.purchases.map (fun q => q.id) ++ tail) :=
  c8_lifecycle 0 7 "pro-tool" "1month" "s1" "K" proStore proToolProduct
    ⟨"1month", 30, 999⟩ 50 7 1 "Card" "DEMO_1" demoStore demoSoftware
    rfl rfl rfl rfl rfl

/-- Concrete instance of the C4 amended theorem at the boundary
instant. -/
theorem c4_canDownload_iff_witness :
    canDownload 100 boundaryPurchase = true ↔
      (boundaryPurchase.status = Status.Completed ∧
       boundaryPurchase.downloadCount < boundaryPurchase.maxDownloads ∧
       (boundaryPurchase.expiresAt = none ∨
         ∃ e, boundaryPurchase.expiresAt = some e ∧ (100 : Int) ≤ e)) :=
  c4_canDownload_iff 100 boundaryPurchase

/-- C10: the serialized purchase never carries the `paymentData` key,
and two purchases differing only in `paymentData` serialize
identically, so payment data cannot flow into an API response. -/
theorem c10_toJSON_hides_paymentData :
    (∀ (p : Purchase) (d : String),
      toJSON { p with paymentData := d } = toJSON p) ∧
    (∀ p : Purchase, "paymentData" ∉ (toJSON p).map Prod.fst) := by
  constructor
  · intro p d
    rfl
  · intro p
    simp [toJSON, toObject, List.filter]

/-- Concrete instance of the C10 theorem: a secret payment payload does
not change the serialization, and the key is absent. -/
theorem c10_toJSON_hides_paymentData_witness :
    toJSON { basePurchase with paymentData := "secret" } =
      toJSON basePurchase ∧
    "paymentData" ∉ (toJSON basePurchase).map Prod.fst :=
  ⟨c10_toJSON_hides_paymentData.1 basePurchase "secret",
   c10_toJSON_hides_paymentData.2 basePurchase⟩

end Claims

end DesyncServer




